import Mathlib

/-!
Verification development for the agentic-marketplace-x402 backend.

The definitions below are a shallow embedding of the TypeScript sources:

* `src/backend/src/services/order.service.ts` (`OrderService`:
  `createOrderIntent`, `finalizeOrder`, `verifyPaymentWithFacilitator`,
  `updateOrderStatus`, `usdToMove`, `getEnrichedOrder`),
* `src/backend/src/services/store.service.ts` (`toPublicStore`),
* `src/backend/src/mcp/mcp-handler.ts` (`McpHandler.handleRequest`,
  `handleToolsCall`),
* the payment MCP router (`verify_payment` tool handler) and the SSE MCP
  router (`microMoveToMove`, `initiate_checkout` tool handler).

External collaborators (the Supabase store, the x402 facilitator HTTP
endpoints, the Shopify Admin API, `uuidv4`, clock reads) are modelled as
explicit inputs: a run of an operation is parameterised by an environment
record fixing the outcome of each external interaction, and the durable
store is an explicit list of rows threaded through the operation.
JavaScript machine-level behaviour is modelled as follows: `BigInt`
arithmetic is `Int` (arbitrary precision, division truncating toward zero
is `Int.tdiv`); `parseFloat` on a plain decimal literal is exact decimal
parsing (the IEEE-754 rounding of the double is not modelled; the prices
appearing in the theorems below are exactly representable, where the two
agree); a JS value that is a string-or-undefined is `Option String`, with
JS truthiness (`undefined`/`""` falsy) made explicit.
-/

/-- JS truthiness of a string-or-undefined value: `undefined`, `null` and
`""` are falsy, every other string is truthy. -/
def jsTruthy : Option String → Bool
  | none => false
  | some s => !(s == "")

/-- JS `a || d` where `a` is string-or-undefined and `d` a string default:
yields the value of `a` when truthy, otherwise `d`. -/
def jsOrDefault (a : Option String) (d : String) : String :=
  match a with
  | none => d
  | some s => if s == "" then d else s

/-- JS `a || b` on two string-or-undefined values (used for
`settleResult.transactionHash || settleResult.txHash`). -/
def jsOrElse (a b : Option String) : Option String :=
  if jsTruthy a then a else b

/-- Value of a digit string, most significant first. -/
def digitsToNat (cs : List Char) : ℕ :=
  cs.foldl (fun a c => a * 10 + (c.toNat - 48)) 0

/-- An exact decimal number `num / 10 ^ scale`, the result of parsing a
decimal literal. -/
structure DecimalNum where
  num : ℤ
  scale : ℕ
  deriving DecidableEq, Repr

/-- Model of JS `parseFloat` on catalog price strings: parses an optional
sign, an integer part and an optional fraction part, as an exact decimal
(prefix parse, as `parseFloat` does). Returns `none` when `parseFloat`
would return `NaN` (no leading digits at all). Exponent notation and
`Infinity` are outside the model. -/
def parseFloatDecimal (s : String) : Option DecimalNum :=
  let cs := s.toList
  let signed :=
    match cs with
    | '-' :: t => (true, t)
    | '+' :: t => (false, t)
    | _ => (false, cs)
  let ip := signed.2.takeWhile Char.isDigit
  let rest := signed.2.drop ip.length
  let fp :=
    match rest with
    | '.' :: t => t.takeWhile Char.isDigit
    | _ => []
  if ip.isEmpty && fp.isEmpty then none
  else
    let mag : ℤ := (digitsToNat ip : ℤ) * 10 ^ fp.length + (digitsToNat fp : ℤ)
    some ⟨if signed.1 then -mag else mag, fp.length⟩

/-- `OrderService.usdToMove`: `BigInt(Math.round(usdAmount * 100_000_000))`,
on an exact decimal `p.num / 10 ^ p.scale`. `Math.round x = ⌊x + 1/2⌋`
(half away from zero toward positive infinity), so the result is
`⌊(p.num * 10^8 + 10^p.scale / 2) / 10^p.scale⌋`, written below with a
single floor division on integers. -/
def usdToMove (p : DecimalNum) : ℤ :=
  Int.fdiv (2 * p.num * 100000000 + 10 ^ p.scale) (2 * 10 ^ p.scale)

/-- A product variant row as read from the catalog store
(`src/backend/src/types/index.ts`). -/
structure Variant where
  id : String
  title : String
  price : String
  available : Bool
  shopify_variant_id : String
  deriving DecidableEq, Repr

/-- A product row with its variants. -/
structure Product where
  id : String
  title : String
  variants : List Variant
  deriving DecidableEq, Repr

/-- A store row, including the sensitive columns
(`shopify_admin_access_token`, `pay_to_address`). `agent_metadata` is an
opaque JSON blob, modelled as a string. -/
structure Store where
  id : String
  shopify_store_url : String
  shopify_admin_access_token : String
  description : String
  agent_metadata : String
  pay_to_address : String
  created_at : String
  updated_at : String
  deriving DecidableEq, Repr

/-- The public view of a store (`StorePublic` in the types module): exactly
the fields `id`, `shopify_store_url`, `description`, `agent_metadata` and
`created_at`. -/
structure StorePublic where
  id : String
  shopify_store_url : String
  description : String
  agent_metadata : String
  created_at : String
  deriving DecidableEq, Repr

/-- `StoreService.toPublicStore`: projects a store row to its public view,
dropping `shopify_admin_access_token`, `pay_to_address` and `updated_at`. -/
def toPublicStore (store : Store) : StorePublic :=
  { id := store.id
    shopify_store_url := store.shopify_store_url
    description := store.description
    agent_metadata := store.agent_metadata
    created_at := store.created_at }

/-- Order intent lifecycle status. -/
inductive OrderStatus
  | pending
  | paid
  | failed
  | expired
  | cancelled
  deriving DecidableEq, Repr

/-- The literal string stored in the `status` column. -/
def OrderStatus.toDbString : OrderStatus → String
  | .pending => "pending"
  | .paid => "paid"
  | .failed => "failed"
  | .expired => "expired"
  | .cancelled => "cancelled"

/-- A line item of an order intent. `price` is the per-unit price in the
smallest unit of the settlement asset; the source stores
`priceInMove.toString()`, i.e. the decimal rendering of this integer. -/
structure OrderItem where
  product_id : String
  variant_id : String
  quantity : ℕ
  price : ℤ
  title : String
  deriving DecidableEq, Repr

/-- Payment proof recorded on transition to `paid`. The opaque facilitator
response blob stored alongside is not modelled. -/
structure PaymentProof where
  transaction : String
  signature : String
  verified_at : ℕ
  deriving DecidableEq, Repr

/-- An `order_intents` row. Timestamps are naturals (milliseconds); the
shipping address is an opaque optional blob. -/
structure OrderIntent where
  id : String
  store_id : String
  items : List OrderItem
  total_amount : ℤ
  currency : String
  pay_to_address : String
  network : String
  asset : String
  status : OrderStatus
  expires_at : ℕ
  shipping_address : Option String
  payment_proof : Option PaymentProof
  shopify_order_id : Option String
  shopify_order_number : Option String
  shopify_order_name : Option String
  deriving DecidableEq, Repr

/-- The durable `order_intents` table. -/
abbrev OrderDb := List OrderIntent

/-- `OrderService.getOrderIntentById`: `select * where id = ... single()`,
i.e. the first row whose `id` column matches. -/
def getOrderIntentById : OrderDb → String → Option OrderIntent
  | [], _ => none
  | r :: rest, orderIntentId =>
    if r.id == orderIntentId then some r else getOrderIntentById rest orderIntentId

/-- `OrderService.updateOrderStatus`: `update { status } where id = ...`,
rewriting the `status` column of every matching row. -/
def updateOrderStatus : OrderDb → String → OrderStatus → OrderDb
  | [], _, _ => []
  | r :: rest, orderIntentId, status =>
    (if r.id == orderIntentId then { r with status := status } else r)
      :: updateOrderStatus rest orderIntentId status

/-- A row update `update {...} where id = ... select single`, replacing each
matching row with the given updated row. -/
def dbUpdateRow : OrderDb → String → OrderIntent → OrderDb
  | [], _, _ => []
  | r :: rest, orderIntentId, row =>
    (if r.id == orderIntentId then row else r) :: dbUpdateRow rest orderIntentId row

theorem getOrderIntentById_updateOrderStatus (db : OrderDb) (oid : String) (st : OrderStatus) :
    getOrderIntentById (updateOrderStatus db oid st) oid =
      (getOrderIntentById db oid).map (fun r => { r with status := st }) := by
  induction db with
  | nil => rfl
  | cons r rest ih =>
    by_cases h : (r.id == oid) = true
    · simp [getOrderIntentById, updateOrderStatus, h]
    · simp [getOrderIntentById, updateOrderStatus, h, ih]

theorem getOrderIntentById_dbUpdateRow (db : OrderDb) (oid : String) (row : OrderIntent)
    (hrow : row.id = oid) :
    getOrderIntentById (dbUpdateRow db oid row) oid =
      (getOrderIntentById db oid).map (fun _ => row) := by
  induction db with
  | nil => rfl
  | cons r rest ih =>
    by_cases h : (r.id == oid) = true
    · simp [getOrderIntentById, dbUpdateRow, h, hrow]
    · simp [getOrderIntentById, dbUpdateRow, h, ih]

/-- One item of an initiate (createOrderIntent) request. -/
structure CreateOrderItemRequest where
  product_id : String
  variant_id : String
  quantity : ℕ
  deriving DecidableEq, Repr

/-- The initiate request body. The shipping address is an opaque optional
blob, immutable after creation. -/
structure CreateOrderIntentRequest where
  store_id : String
  items : List CreateOrderItemRequest
  shipping_address : Option String
  deriving DecidableEq, Repr

/-- The distinct throw sites of `OrderService.createOrderIntent`.
`priceNotANumber` models `BigInt(Math.round(NaN * 1e8))` raising when the
variant price string does not parse as a number. -/
inductive CreateOrderError
  | storeNotFound
  | productNotFound (productId : String)
  | variantNotFound (variantId : String)
  | variantUnavailable (title : String)
  | priceNotANumber (raw : String)
  deriving DecidableEq, Repr

/-- The error messages thrown by `createOrderIntent`. -/
def renderCreateOrderError : CreateOrderError → String
  | .storeNotFound => "Store not found"
  | .productNotFound pid => "Product not found: " ++ pid
  | .variantNotFound vid => "Variant not found: " ++ vid
  | .variantUnavailable t => "Variant not available: " ++ t
  | .priceNotANumber _ => "Cannot convert NaN to a BigInt"

/-- External interactions of one `createOrderIntent` run: the store row
returned by `storeService.getStoreById`, the catalog rows returned by
`productService.getProductsByIds`, the clock, the deployment config values
read from `config`, and the fresh `uuidv4()`. -/
structure CreateEnv where
  store : Option Store
  catalog : List Product
  now : ℕ
  orderIntentExpiryMinutes : ℕ
  paymentTimeoutSeconds : ℕ
  movementNetwork : String
  movementAsset : String
  newOrderIntentId : String
  deriving DecidableEq, Repr

/-- The pricing loop of `createOrderIntent`: resolves each requested item
against the catalog, rejects a missing product, a missing variant or an
unavailable variant, converts the catalog price with `usdToMove`, and
accumulates `totalAmountMicro += priceInMove * BigInt(quantity)` while
collecting the order items in request order. -/
def buildOrderItems (catalog : List Product) :
    List CreateOrderItemRequest → Except CreateOrderError (List OrderItem × ℤ)
  | [] => .ok ([], 0)
  | item :: rest =>
    match catalog.find? (fun p => p.id == item.product_id) with
    | none => .error (.productNotFound item.product_id)
    | some product =>
      match product.variants.find? (fun v => v.id == item.variant_id) with
      | none => .error (.variantNotFound item.variant_id)
      | some variant =>
        if !variant.available then .error (.variantUnavailable variant.title)
        else
          match parseFloatDecimal variant.price with
          | none => .error (.priceNotANumber variant.price)
          | some p =>
            match buildOrderItems catalog rest with
            | .error e => .error e
            | .ok (items, total) =>
              .ok
                ({ product_id := item.product_id
                   variant_id := item.variant_id
                   quantity := item.quantity
                   price := usdToMove p
                   title := product.title ++ " - " ++ variant.title } :: items,
                  usdToMove p * (item.quantity : ℤ) + total)

/-- The `paymentRequirements` descriptor returned by initiate. -/
structure PaymentRequirements where
  network : String
  asset : String
  payTo : String
  maxAmountRequired : ℤ
  description : String
  mimeType : String
  maxTimeoutSeconds : ℕ
  orderIntentId : String
  deriving DecidableEq, Repr

/-- `OrderService.createOrderIntent`: resolves the store, prices the items
with `buildOrderItems`, builds the intent with `status = 'pending'` and
`expires_at = now + expiry minutes`, persists it (one insert, appended to
the table) and returns it with the payment requirements descriptor. -/
def createOrderIntent (env : CreateEnv) (db : OrderDb) (request : CreateOrderIntentRequest) :
    Except CreateOrderError (OrderIntent × PaymentRequirements × OrderDb) :=
  match env.store with
  | none => .error .storeNotFound
  | some store =>
    match buildOrderItems env.catalog request.items with
    | .error e => .error e
    | .ok (orderItems, totalAmountMicro) =>
      let expiresAt := env.now + env.orderIntentExpiryMinutes * 60 * 1000
      let orderIntent : OrderIntent :=
        { id := env.newOrderIntentId
          store_id := request.store_id
          items := orderItems
          total_amount := totalAmountMicro
          currency := "MOVE"
          pay_to_address := store.pay_to_address
          network := env.movementNetwork
          asset := env.movementAsset
          status := .pending
          expires_at := expiresAt
          shipping_address := request.shipping_address
          payment_proof := none
          shopify_order_id := none
          shopify_order_number := none
          shopify_order_name := none }
      let paymentRequirements : PaymentRequirements :=
        { network := env.movementNetwork
          asset := env.movementAsset
          payTo := store.pay_to_address
          maxAmountRequired := totalAmountMicro
          description := "Order from " ++ store.description
          mimeType := "application/json"
          maxTimeoutSeconds := env.paymentTimeoutSeconds
          orderIntentId := env.newOrderIntentId }
      .ok (orderIntent, paymentRequirements, db ++ [orderIntent])

/-- The sum of stored per-unit price times quantity over the line items. -/
def lineItemsTotal (items : List OrderItem) : ℤ :=
  (items.map (fun i => i.price * (i.quantity : ℤ))).sum

theorem buildOrderItems_total (catalog : List Product) :
    ∀ (l : List CreateOrderItemRequest) (items : List OrderItem) (total : ℤ),
      buildOrderItems catalog l = .ok (items, total) → total = lineItemsTotal items := by
  intro l
  induction l with
  | nil =>
    intro items total h
    simp only [buildOrderItems] at h
    cases h
    rfl
  | cons item rest ih =>
    intro items total h
    simp only [buildOrderItems] at h
    split at h
    · exact absurd h (by simp)
    · split at h
      · exact absurd h (by simp)
      · split at h
        · exact absurd h (by simp)
        · split at h
          · exact absurd h (by simp)
          · split at h
            · exact absurd h (by simp)
            · rename_i restItems restTotal heq
              simp only [Except.ok.injEq, Prod.mk.injEq] at h
              obtain ⟨hitems, htotal⟩ := h
              subst hitems
              have hrec := ih restItems restTotal heq
              simp only [lineItemsTotal, List.map_cons, List.sum_cons] at *
              omega

instance exceptDecidableEq {ε α : Type} [DecidableEq ε] [DecidableEq α] :
    DecidableEq (Except ε α) := fun a b =>
  match a, b with
  | .ok x, .ok y =>
    if h : x = y then isTrue (congrArg Except.ok h)
    else isFalse (fun hh => h (Except.ok.inj hh))
  | .error x, .error y =>
    if h : x = y then isTrue (congrArg Except.error h)
    else isFalse (fun hh => h (Except.error.inj hh))
  | .ok _, .error _ => isFalse Except.noConfusion
  | .error _, .ok _ => isFalse Except.noConfusion

/-- C5: for every successful initiate (`createOrderIntent`) call with at
least one valid item, the persisted intent's `totalAmount` equals the sum
over all items of the stored per-unit price times quantity, computed in
integer (`BigInt`, here `ℤ`) arithmetic, and the intent's status is
`pending`. The intent is also in the table afterwards. -/
theorem createOrderIntent_total_and_pending
    (env : CreateEnv) (db : OrderDb) (request : CreateOrderIntentRequest)
    (intent : OrderIntent) (reqs : PaymentRequirements) (db' : OrderDb)
    (_hreq : request.items ≠ [])
    (h : createOrderIntent env db request = .ok (intent, reqs, db')) :
    intent.total_amount = lineItemsTotal intent.items
      ∧ intent.status = .pending
      ∧ intent ∈ db' := by
  clear _hreq
  simp only [createOrderIntent] at h
  split at h
  · exact absurd h (by simp)
  · split at h
    · exact absurd h (by simp)
    · rename_i store orderItems totalAmountMicro heq
      simp only [Except.ok.injEq, Prod.mk.injEq] at h
      obtain ⟨hintent, _hreqs, hdb⟩ := h
      subst hintent
      refine ⟨?_, rfl, ?_⟩
      · exact buildOrderItems_total env.catalog request.items orderItems totalAmountMicro heq
      · rw [← hdb]; simp

def c5Store : Store :=
  { id := "s1", shopify_store_url := "https://s1.example", shopify_admin_access_token := "tok"
    description := "desc", agent_metadata := "meta", pay_to_address := "0xpay"
    created_at := "t0", updated_at := "t0" }

def c5Product : Product :=
  { id := "p1", title := "Prod", variants := [⟨"v1", "Var", "1", true, "sv1"⟩] }

def c5Env : CreateEnv :=
  { store := some c5Store, catalog := [c5Product], now := 0
    orderIntentExpiryMinutes := 30, paymentTimeoutSeconds := 600
    movementNetwork := "movement", movementAsset := "0x1::aptos_coin::AptosCoin"
    newOrderIntentId := "oi-1" }

def c5Request : CreateOrderIntentRequest :=
  { store_id := "s1", items := [⟨"p1", "v1", 1⟩], shipping_address := none }

def c5Intent : OrderIntent :=
  { id := "oi-1", store_id := "s1"
    items := [⟨"p1", "v1", 1, 100000000, "Prod - Var"⟩]
    total_amount := 100000000, currency := "MOVE", pay_to_address := "0xpay"
    network := "movement", asset := "0x1::aptos_coin::AptosCoin"
    status := .pending, expires_at := 1800000, shipping_address := none
    payment_proof := none, shopify_order_id := none
    shopify_order_number := none, shopify_order_name := none }

def c5Reqs : PaymentRequirements :=
  { network := "movement", asset := "0x1::aptos_coin::AptosCoin", payTo := "0xpay"
    maxAmountRequired := 100000000, description := "Order from desc"
    mimeType := "application/json", maxTimeoutSeconds := 600, orderIntentId := "oi-1" }

/-- Witness for C5 at a concrete one-item request. -/
theorem createOrderIntent_total_and_pending_witness :
    c5Request.items ≠ []
      ∧ (c5Intent.total_amount = lineItemsTotal c5Intent.items
          ∧ c5Intent.status = .pending
          ∧ c5Intent ∈ [c5Intent]) :=
  ⟨by decide,
    createOrderIntent_total_and_pending c5Env [] c5Request c5Intent c5Reqs [c5Intent]
      (by decide) (by decide)⟩

def c7Store : Store :=
  { id := "s7", shopify_store_url := "https://s7.example", shopify_admin_access_token := "tok7"
    description := "store seven", agent_metadata := "meta7", pay_to_address := "0xpay7"
    created_at := "t0", updated_at := "t0" }

def c7Product : Product :=
  { id := "productA", title := "Product A"
    variants := [⟨"variantA", "Variant A", "10.00", true, "sv7"⟩] }

def c7Env : CreateEnv :=
  { store := some c7Store, catalog := [c7Product], now := 0
    orderIntentExpiryMinutes := 30, paymentTimeoutSeconds := 600
    movementNetwork := "movement", movementAsset := "0x1::aptos_coin::AptosCoin"
    newOrderIntentId := "oi-7" }

def c7Request : CreateOrderIntentRequest :=
  { store_id := "s7", items := [⟨"productA", "variantA", 2⟩], shipping_address := none }

/-- C7: an initiate call with a single item of quantity 2 whose catalog price
is "10.00", under the fixed 1:1 conversion into the 8-decimal smallest unit
(`usdToMove`), yields `totalAmount = "2000000000"`; the total is the
`ℤ`-product `usdToMove ⟨1000, 2⟩ * 2` — quantity scaling and summation are
`BigInt` arithmetic, the only non-integer step being the `parseFloat`
conversion at the pricing boundary, exact for "10.00". -/
theorem createOrderIntent_ten_dollar_qty2_scenario :
    (createOrderIntent c7Env [] c7Request).map
        (fun o => (toString o.1.total_amount, o.1.status)) =
      .ok ("2000000000", OrderStatus.pending)
    ∧ (createOrderIntent c7Env [] c7Request).map (fun o => o.1.total_amount) =
      .ok (usdToMove ⟨1000, 2⟩ * 2) := by
  constructor
  · decide
  · decide

/-- The `payload` object of a decoded X-PAYMENT header. -/
structure PaymentPayloadFields where
  signature : Option String
  transaction : Option String
  deriving DecidableEq, Repr

/-- A decoded X-PAYMENT header:
`{ x402Version, scheme, network, payload: { signature, transaction } }`.
Every field may be absent from the decoded JSON. -/
structure PaymentData where
  x402Version : Option ℤ
  scheme : Option String
  network : Option String
  payload : Option PaymentPayloadFields
  deriving DecidableEq, Repr

/-- Shopify order references returned by `shopifyService.createOrder`. -/
structure ShopifyOrderRefs where
  orderId : String
  orderNumber : String
  orderName : String
  deriving DecidableEq, Repr

/-- External interactions of one `finalizeOrder` run: the clock, the result
of decoding the X-PAYMENT header (`none` models `JSON.parse` throwing, with
the exception message), the facilitator `/verify` and `/settle` HTTP
responses, the store lookup for the intent's store, and the outcome of the
Shopify order-creation attempt (`none` models the fulfillment block
throwing). -/
structure FinalizeEnv where
  now : ℕ
  decodedPayment : Option PaymentData
  decodeErrorMessage : String
  verifyOk : Bool
  verifyErrorField : Option String
  settleOk : Bool
  settleErrorField : Option String
  settleTransactionHash : Option String
  settleTxHash : Option String
  storeFound : Bool
  shopifyCreateResult : Option ShopifyOrderRefs
  deriving DecidableEq, Repr

/-- Return value of `OrderService.verifyPaymentWithFacilitator`. -/
structure VerificationResult where
  success : Bool
  transactionHash : Option String
  errorText : Option String
  deriving DecidableEq, Repr

/-- `OrderService.verifyPaymentWithFacilitator`: decodes the X-PAYMENT
header (a thrown decode error is caught by the surrounding try/catch and
returned as `success: false` with a `Verification error: ...` message),
then calls the facilitator `/verify` endpoint and, on success, `/settle`.
A non-ok `/verify` response yields the facilitator's `error` field or
"Facilitator verification failed"; a non-ok `/settle` response yields the
settle `error` field or "Settlement failed"; on success the transaction
hash is `settleResult.transactionHash || settleResult.txHash`. -/
def verifyPaymentWithFacilitator (env : FinalizeEnv) (_paymentHeader : String) :
    VerificationResult :=
  match env.decodedPayment with
  | none =>
    { success := false, transactionHash := none
      errorText := some ("Verification error: " ++ env.decodeErrorMessage) }
  | some _ =>
    if !env.verifyOk then
      { success := false, transactionHash := none
        errorText := some (jsOrDefault env.verifyErrorField "Facilitator verification failed") }
    else if !env.settleOk then
      { success := false, transactionHash := none
        errorText := some (jsOrDefault env.settleErrorField "Settlement failed") }
    else
      { success := true
        transactionHash := jsOrElse env.settleTransactionHash env.settleTxHash
        errorText := none }

/-- The distinct throw sites of `OrderService.finalizeOrder` (all thrown as
generic `Error`s in the source; the constructor records the throw site and
the interpolated data, `renderFinalizeError` recovers the exact message). -/
inductive FinalizeError
  | orderIntentNotFound
  | orderIntentNotPending (status : OrderStatus)
  | orderIntentExpired
  | paymentVerificationFailed (msg : String)
  | storeNotFound
  deriving DecidableEq, Repr

/-- The error messages thrown by `finalizeOrder`. -/
def renderFinalizeError : FinalizeError → String
  | .orderIntentNotFound => "Order intent not found"
  | .orderIntentNotPending st => "Order intent is not pending: " ++ st.toDbString
  | .orderIntentExpired => "Order intent has expired"
  | .paymentVerificationFailed m => "Payment verification failed: " ++ m
  | .storeNotFound => "Store not found"

/-- Outcome of one `finalizeOrder` run: the thrown-or-returned result, the
table afterwards, and the persisted status of the intent at the moment the
Shopify fulfillment block was entered (`none` when no fulfillment was
attempted). -/
structure FinalizeRun where
  result : Except FinalizeError OrderIntent
  db : OrderDb
  statusAtFulfillmentAttempt : Option OrderStatus
  deriving DecidableEq, Repr

/-- `OrderService.finalizeOrder`: loads the intent (missing → not-found
error); rejects a non-pending intent naming its current status; on
`expires_at` in the past persists `expired` and throws; otherwise runs
`verifyPaymentWithFacilitator` and, on failure, persists `failed` and
throws `Payment verification failed: ...`. On verification success it
builds the payment proof, loads the store (missing → throws with the
intent left untouched), then enters the try/catch block that attempts the
Shopify order creation (an exception is caught and only logged), and only
after that block persists `{ status: 'paid', payment_proof, shopify_* }`
and returns the updated row. -/
def finalizeOrder (env : FinalizeEnv) (db : OrderDb)
    (orderIntentId paymentHeader : String) : FinalizeRun :=
  match getOrderIntentById db orderIntentId with
  | none => ⟨.error .orderIntentNotFound, db, none⟩
  | some orderIntent =>
    if orderIntent.status ≠ .pending then
      ⟨.error (.orderIntentNotPending orderIntent.status), db, none⟩
    else if orderIntent.expires_at < env.now then
      ⟨.error .orderIntentExpired, updateOrderStatus db orderIntentId .expired, none⟩
    else
      let verificationResult := verifyPaymentWithFacilitator env paymentHeader
      if !verificationResult.success then
        ⟨.error (.paymentVerificationFailed (jsOrDefault verificationResult.errorText "undefined")),
          updateOrderStatus db orderIntentId .failed, none⟩
      else
        let paymentProof : PaymentProof :=
          { transaction := jsOrDefault verificationResult.transactionHash ""
            signature := paymentHeader
            verified_at := env.now }
        if !env.storeFound then
          ⟨.error .storeNotFound, db, none⟩
        else
          let statusAtAttempt := (getOrderIntentById db orderIntentId).map (fun r => r.status)
          let refs := env.shopifyCreateResult
          let updatedOrder : OrderIntent :=
            { orderIntent with
              status := .paid
              payment_proof := some paymentProof
              shopify_order_id := refs.map (fun r => r.orderId)
              shopify_order_number := refs.map (fun r => r.orderNumber)
              shopify_order_name := refs.map (fun r => r.orderName) }
          ⟨.ok updatedOrder, dbUpdateRow db orderIntentId updatedOrder, statusAtAttempt⟩

theorem getOrderIntentById_id (db : OrderDb) (oid : String) (r : OrderIntent)
    (h : getOrderIntentById db oid = some r) : r.id = oid := by
  induction db with
  | nil => cases h
  | cons x rest ih =>
    by_cases hx : (x.id == oid) = true
    · simp only [getOrderIntentById, hx, if_pos, Option.some.injEq] at h
      subst h
      exact eq_of_beq hx
    · simp only [getOrderIntentById, hx, if_neg, Bool.false_eq_true] at h
      exact ih h

theorem string_append_beq_empty (s t : String) (h : s.length ≠ 0) :
    ((s ++ t) == "") = false := by
  rw [beq_eq_false_iff_ne]
  intro he
  have hl := congrArg String.length he
  rw [String.length_append] at hl
  rw [show ("" : String).length = 0 from rfl] at hl
  omega

theorem jsOrDefault_of_truthy (s d : String) (hs : (s == "") = false) :
    jsOrDefault (some s) d = s := by
  simp [jsOrDefault, hs]

theorem status_after_dbUpdateRow (db : OrderDb) (oid : String) (row : OrderIntent)
    (hrow : row.id = oid) (r0 : OrderIntent) (h0 : getOrderIntentById db oid = some r0) :
    (getOrderIntentById (dbUpdateRow db oid row) oid).map (fun r => r.status) =
      some row.status := by
  rw [getOrderIntentById_dbUpdateRow db oid row hrow, h0]
  rfl

/-- A pending, unexpired (until time 1000) intent used as a concrete row in
counterexamples and witnesses. -/
def samplePendingIntent : OrderIntent :=
  { id := "o1", store_id := "s1", items := []
    total_amount := 100, currency := "MOVE", pay_to_address := "0xpay"
    network := "movement", asset := "0x1::aptos_coin::AptosCoin"
    status := .pending, expires_at := 1000, shipping_address := none
    payment_proof := none, shopify_order_id := none
    shopify_order_number := none, shopify_order_name := none }

/-- A structurally complete decoded X-PAYMENT header. -/
def samplePaymentData : PaymentData :=
  { x402Version := some 1, scheme := some "exact", network := some "movement"
    payload := some { signature := some "sigbcs", transaction := some "txbcs" } }

/-- A fully successful finalize environment: payload decodes, facilitator
verify and settle respond ok, the store exists and the Shopify order
creation succeeds. -/
def sampleEnvBase : FinalizeEnv :=
  { now := 500, decodedPayment := some samplePaymentData, decodeErrorMessage := ""
    verifyOk := true, verifyErrorField := none
    settleOk := true, settleErrorField := none
    settleTransactionHash := some "0xtxhash", settleTxHash := none
    storeFound := true
    shopifyCreateResult := some ⟨"gid-1", "1001", "#1001"⟩ }

def c1Env : FinalizeEnv :=
  { sampleEnvBase with
    decodedPayment := none
    decodeErrorMessage := "Unexpected end of JSON input" }

/-- Counterexample for C1: finalize on a pending, unexpired intent with the
payload "!!!" (Node decodes it to an empty buffer, so `JSON.parse("")`
throws "Unexpected end of JSON input"). The decode exception is caught by
the try/catch in `verifyPaymentWithFacilitator` and surfaces as a failed
verification, so the intent is persisted as `failed` — it does not remain
`pending`, and the thrown error is the generic payment-verification error,
not a distinct decoding error. -/
theorem finalize_malformed_payload_counterexample :
    ((getOrderIntentById [samplePendingIntent] "o1").map (fun r => r.status)
        = some OrderStatus.pending)
    ∧ (getOrderIntentById (finalizeOrder c1Env [samplePendingIntent] "o1" "!!!").db "o1").map
        (fun r => r.status) = some OrderStatus.failed
    ∧ (finalizeOrder c1Env [samplePendingIntent] "o1" "!!!").result =
        .error (.paymentVerificationFailed "Verification error: Unexpected end of JSON input")
    ∧ OrderStatus.failed ≠ OrderStatus.pending := by
  decide

/-- C1 as amended: for every finalize call on a pending, unexpired intent
whose signed-payment payload fails structural decoding, the decode
exception is converted into a payment-verification failure: the call
throws `Payment verification failed: Verification error: ...` and the
intent is persisted as `failed` (it does not stay `pending`). -/
theorem finalize_decode_failure_marks_failed
    (env : FinalizeEnv) (db : OrderDb) (oid hdr : String) (intent : OrderIntent)
    (h1 : getOrderIntentById db oid = some intent)
    (h2 : intent.status = .pending)
    (h3 : ¬ intent.expires_at < env.now)
    (h4 : env.decodedPayment = none) :
    (finalizeOrder env db oid hdr).result =
        .error (.paymentVerificationFailed
          ("Verification error: " ++ env.decodeErrorMessage))
      ∧ (getOrderIntentById (finalizeOrder env db oid hdr).db oid).map
          (fun r => r.status) = some OrderStatus.failed := by
  have hv : verifyPaymentWithFacilitator env hdr =
      { success := false, transactionHash := none
        errorText := some ("Verification error: " ++ env.decodeErrorMessage) } := by
    simp [verifyPaymentWithFacilitator, h4]
  have hmsg : (("Verification error: " ++ env.decodeErrorMessage) == "") = false :=
    string_append_beq_empty _ _ (by decide)
  constructor
  · simp [finalizeOrder, h1, h2, h3, hv, jsOrDefault_of_truthy _ _ hmsg]
  · simp [finalizeOrder, h1, h2, h3, hv,
      getOrderIntentById_updateOrderStatus, jsOrDefault_of_truthy _ _ hmsg]

/-- Witness for C1 (amended) at the concrete inputs of the counterexample
environment. -/
theorem finalize_decode_failure_marks_failed_witness :
    (finalizeOrder c1Env [samplePendingIntent] "o1" "!!!").result =
        .error (.paymentVerificationFailed
          ("Verification error: " ++ c1Env.decodeErrorMessage))
      ∧ (getOrderIntentById (finalizeOrder c1Env [samplePendingIntent] "o1" "!!!").db "o1").map
          (fun r => r.status) = some OrderStatus.failed :=
  finalize_decode_failure_marks_failed c1Env [samplePendingIntent] "o1" "!!!"
    samplePendingIntent (by decide) (by decide) (by decide) (by decide)

def c2EnvFulfillFails : FinalizeEnv :=
  { sampleEnvBase with shopifyCreateResult := none }

/-- Counterexample for C2: in a finalize run where verification and
settlement succeed, the Shopify fulfillment block is entered while the
persisted status of the intent is still `pending` — the `paid` status is
written only after the fulfillment attempt, not before it as claimed. -/
theorem finalize_paid_after_fulfillment_counterexample :
    (finalizeOrder sampleEnvBase [samplePendingIntent] "o1" "hdr").statusAtFulfillmentAttempt =
        some OrderStatus.pending
    ∧ (finalizeOrder sampleEnvBase [samplePendingIntent] "o1" "hdr").statusAtFulfillmentAttempt ≠
        some OrderStatus.paid
    ∧ (finalizeOrder sampleEnvBase [samplePendingIntent] "o1" "hdr").result.map
        (fun r => r.status) = .ok OrderStatus.paid := by
  decide

/-- C2 as amended: in every finalize execution where facilitator
verification and settlement succeed and the store lookup succeeds, the
fulfillment (Shopify order creation) attempt happens first — while the
persisted status is still `pending` — and only then is `paid` persisted;
the returned intent reads back as `paid` whether or not the fulfillment
attempt succeeded (`env.shopifyCreateResult` is unconstrained, covering
both a successful creation and a thrown one). -/
theorem finalize_success_paid_readback
    (env : FinalizeEnv) (db : OrderDb) (oid hdr : String)
    (intent : OrderIntent) (pd : PaymentData)
    (h1 : getOrderIntentById db oid = some intent)
    (h2 : intent.status = .pending)
    (h3 : ¬ intent.expires_at < env.now)
    (h4 : env.decodedPayment = some pd)
    (h5 : env.verifyOk = true)
    (h6 : env.settleOk = true)
    (h7 : env.storeFound = true) :
    (finalizeOrder env db oid hdr).result.map (fun r => r.status) = .ok OrderStatus.paid
      ∧ (getOrderIntentById (finalizeOrder env db oid hdr).db oid).map
          (fun r => r.status) = some OrderStatus.paid
      ∧ (finalizeOrder env db oid hdr).statusAtFulfillmentAttempt =
          some OrderStatus.pending := by
  have hv : verifyPaymentWithFacilitator env hdr =
      { success := true
        transactionHash := jsOrElse env.settleTransactionHash env.settleTxHash
        errorText := none } := by
    simp [verifyPaymentWithFacilitator, h4, h5, h6]
  have hid : intent.id = oid := getOrderIntentById_id db oid intent h1
  refine ⟨?_, ?_, ?_⟩
  · simp [finalizeOrder, h1, h2, h3, hv, h7, Except.map]
  · simp [finalizeOrder, h1, h2, h3, hv, h7, -Option.map_eq_some']
    exact status_after_dbUpdateRow db oid _ hid intent h1
  · simp [finalizeOrder, h1, h2, h3, hv, h7, Except.map]

/-- Witness for C2 (amended) at a concrete run in which the fulfillment
attempt throws. -/
theorem finalize_success_paid_readback_witness :
    (finalizeOrder c2EnvFulfillFails [samplePendingIntent] "o1" "hdr").result.map
        (fun r => r.status) = .ok OrderStatus.paid
      ∧ (getOrderIntentById
            (finalizeOrder c2EnvFulfillFails [samplePendingIntent] "o1" "hdr").db "o1").map
          (fun r => r.status) = some OrderStatus.paid
      ∧ (finalizeOrder c2EnvFulfillFails [samplePendingIntent] "o1" "hdr").statusAtFulfillmentAttempt =
          some OrderStatus.pending :=
  finalize_success_paid_readback c2EnvFulfillFails [samplePendingIntent] "o1" "hdr"
    samplePendingIntent samplePaymentData
    (by decide) (by decide) (by decide) (by decide) (by decide) (by decide) (by decide)

def c3EnvVerifyFails : FinalizeEnv :=
  { sampleEnvBase with verifyOk := false, verifyErrorField := some "boom" }

def c3EnvSettleFails : FinalizeEnv :=
  { sampleEnvBase with settleOk := false, settleErrorField := some "boom" }

/-- Counterexample for C3: a run where facilitator verification itself fails
(with facilitator error field "boom") and a run where verification succeeds
but settlement fails (with settle error field "boom") throw literally the
same error — same throw site, same message `Payment verification failed:
boom` — so the two failures are not distinguishable by error kind. -/
theorem finalize_verify_vs_settle_same_error_counterexample :
    (finalizeOrder c3EnvVerifyFails [samplePendingIntent] "o1" "hdr").result =
        (finalizeOrder c3EnvSettleFails [samplePendingIntent] "o1" "hdr").result
    ∧ (finalizeOrder c3EnvVerifyFails [samplePendingIntent] "o1" "hdr").result =
        .error (.paymentVerificationFailed "boom")
    ∧ c3EnvVerifyFails.verifyOk = false
    ∧ c3EnvSettleFails.verifyOk = true
    ∧ c3EnvSettleFails.settleOk = false
    ∧ renderFinalizeError (.paymentVerificationFailed "boom") =
        "Payment verification failed: boom" := by
  decide

/-- C3 as amended: for every finalize call where facilitator verification
succeeds but settlement fails, the intent transitions to `failed`; the
raised error however has the same kind as a verification failure — the
single `Payment verification failed: ...` throw site — carrying the
facilitator's settle `error` field (default "Settlement failed") as its
embedded message, which is the only way to tell the two failures apart,
and only when the facilitator messages differ. -/
theorem finalize_settle_failure_marks_failed
    (env : FinalizeEnv) (db : OrderDb) (oid hdr : String)
    (intent : OrderIntent) (pd : PaymentData)
    (h1 : getOrderIntentById db oid = some intent)
    (h2 : intent.status = .pending)
    (h3 : ¬ intent.expires_at < env.now)
    (h4 : env.decodedPayment = some pd)
    (h5 : env.verifyOk = true)
    (h6 : env.settleOk = false) :
    (finalizeOrder env db oid hdr).result =
        .error (.paymentVerificationFailed
          (jsOrDefault env.settleErrorField "Settlement failed"))
      ∧ (getOrderIntentById (finalizeOrder env db oid hdr).db oid).map
          (fun r => r.status) = some OrderStatus.failed := by
  have hv : verifyPaymentWithFacilitator env hdr =
      { success := false, transactionHash := none
        errorText := some (jsOrDefault env.settleErrorField "Settlement failed") } := by
    simp [verifyPaymentWithFacilitator, h4, h5, h6]
  have hmsg : ((jsOrDefault env.settleErrorField "Settlement failed") == "") = false := by
    unfold jsOrDefault
    cases env.settleErrorField with
    | none => decide
    | some s =>
      by_cases hs : (s == "") = true
      · simp [hs]
      · simp only [Bool.not_eq_true] at hs
        simp [hs]
  constructor
  · simp [finalizeOrder, h1, h2, h3, hv, jsOrDefault_of_truthy _ _ hmsg]
  · simp [finalizeOrder, h1, h2, h3, hv,
      getOrderIntentById_updateOrderStatus, jsOrDefault_of_truthy _ _ hmsg]

/-- Witness for C3 (amended) at the settle-failure environment of the
counterexample. -/
theorem finalize_settle_failure_marks_failed_witness :
    (finalizeOrder c3EnvSettleFails [samplePendingIntent] "o1" "hdr").result =
        .error (.paymentVerificationFailed
          (jsOrDefault c3EnvSettleFails.settleErrorField "Settlement failed"))
      ∧ (getOrderIntentById
            (finalizeOrder c3EnvSettleFails [samplePendingIntent] "o1" "hdr").db "o1").map
          (fun r => r.status) = some OrderStatus.failed :=
  finalize_settle_failure_marks_failed c3EnvSettleFails [samplePendingIntent] "o1" "hdr"
    samplePendingIntent samplePaymentData
    (by decide) (by decide) (by decide) (by decide) (by decide) (by decide)

/-- C6: the first finalize call on a pending intent whose `expires_at` has
passed persists `expired` (that single status write is the only mutation)
and throws the expired error; every later finalize call on the now-expired
intent throws the conflict error naming the current status `expired` — a
different error from the expired one — and writes nothing (the table is
unchanged), so `expired` is persisted exactly once. -/
theorem finalize_expired_once_then_conflict
    (env : FinalizeEnv) (db : OrderDb) (oid hdr : String) (intent : OrderIntent)
    (h1 : getOrderIntentById db oid = some intent)
    (h2 : intent.status = .pending)
    (h3 : intent.expires_at < env.now) :
    (finalizeOrder env db oid hdr).result = .error .orderIntentExpired
      ∧ (finalizeOrder env db oid hdr).db = updateOrderStatus db oid .expired
      ∧ (getOrderIntentById (finalizeOrder env db oid hdr).db oid).map
          (fun r => r.status) = some OrderStatus.expired
      ∧ (∀ (env' : FinalizeEnv) (hdr' : String),
          (finalizeOrder env' (finalizeOrder env db oid hdr).db oid hdr').result =
              .error (.orderIntentNotPending .expired)
            ∧ (finalizeOrder env' (finalizeOrder env db oid hdr).db oid hdr').db =
                (finalizeOrder env db oid hdr).db)
      ∧ FinalizeError.orderIntentNotPending .expired ≠ FinalizeError.orderIntentExpired := by
  have hrun : finalizeOrder env db oid hdr =
      ⟨.error .orderIntentExpired, updateOrderStatus db oid .expired, none⟩ := by
    simp [finalizeOrder, h1, h2, h3]
  have hread : getOrderIntentById (updateOrderStatus db oid .expired) oid =
      some { intent with status := .expired } := by
    rw [getOrderIntentById_updateOrderStatus, h1]
    rfl
  refine ⟨by rw [hrun], by rw [hrun], ?_, ?_, by decide⟩
  · rw [hrun]
    show (getOrderIntentById (updateOrderStatus db oid .expired) oid).map
        (fun r => r.status) = some OrderStatus.expired
    rw [hread]
    rfl
  · intro env' hdr'
    rw [hrun]
    constructor
    · simp [finalizeOrder, hread]
    · simp [finalizeOrder, hread]

def c6ExpiredIntent : OrderIntent :=
  { samplePendingIntent with expires_at := 100 }

def c6Env : FinalizeEnv :=
  { sampleEnvBase with now := 500 }

/-- Witness for C6 at a concrete intent whose TTL (100) is before the clock
(500). -/
theorem finalize_expired_once_then_conflict_witness :
    (finalizeOrder c6Env [c6ExpiredIntent] "o1" "hdr").result = .error .orderIntentExpired
      ∧ (finalizeOrder c6Env [c6ExpiredIntent] "o1" "hdr").db =
          updateOrderStatus [c6ExpiredIntent] "o1" .expired
      ∧ (getOrderIntentById (finalizeOrder c6Env [c6ExpiredIntent] "o1" "hdr").db "o1").map
          (fun r => r.status) = some OrderStatus.expired
      ∧ (∀ (env' : FinalizeEnv) (hdr' : String),
          (finalizeOrder env' (finalizeOrder c6Env [c6ExpiredIntent] "o1" "hdr").db "o1" hdr').result =
              .error (.orderIntentNotPending .expired)
            ∧ (finalizeOrder env' (finalizeOrder c6Env [c6ExpiredIntent] "o1" "hdr").db "o1" hdr').db =
                (finalizeOrder c6Env [c6ExpiredIntent] "o1" "hdr").db)
      ∧ FinalizeError.orderIntentNotPending .expired ≠ FinalizeError.orderIntentExpired :=
  finalize_expired_once_then_conflict c6Env [c6ExpiredIntent] "o1" "hdr" c6ExpiredIntent
    (by decide) (by decide) (by decide)

/-- Escapes a string as JSON.stringify does for the characters appearing in
error messages (quote, backslash, and the common control characters). -/
def jsonEscape (s : String) : String :=
  String.join (s.toList.map (fun c =>
    if c = '"' then "\\\""
    else if c = '\\' then "\\\\"
    else if c = '\n' then "\\n"
    else if c = '\r' then "\\r"
    else if c = '\t' then "\\t"
    else String.singleton c))

/-- The body built by `JSON.stringify({ error: message })` in the
tools/call catch branch. -/
def jsonStringifyErrorObj (msg : String) : String :=
  "\x7b\"error\":\"" ++ jsonEscape msg ++ "\"\x7d"

/-- Arguments passed to a tool handler (`params.arguments`), an opaque JSON
object modelled as key/value pairs. -/
abbrev ToolArgs := List (String × String)

/-- The value a tool handler resolves with: either a plain string (returned
verbatim as the content text) or any other JSON value, carried here
already rendered by `JSON.stringify(result, null, 2)`. -/
inductive ToolValue
  | strVal (s : String)
  | jsonVal (rendered : String)
  deriving DecidableEq, Repr

/-- The dispatcher renders a tool result:
`typeof result === 'string' ? result : JSON.stringify(result, null, 2)`. -/
def renderToolValue : ToolValue → String
  | .strVal s => s
  | .jsonVal r => r

/-- A tool handler: resolves with a value or rejects with an `Error`
carrying a message. -/
abbrev ToolHandlerFn := ToolArgs → Except String ToolValue

/-- A registered tool (`McpTool`); the JSON input schema is opaque and not
modelled. -/
structure McpTool where
  name : String
  description : String
  deriving DecidableEq, Repr

/-- A registry entry of `McpHandler.tools`. -/
structure McpToolEntry where
  tool : McpTool
  handler : ToolHandlerFn

/-- The `McpHandler.tools` map, keyed by tool name. -/
abbrev McpRegistry := List McpToolEntry

/-- `Map.get(name)` on the registry. -/
def registryGet (reg : McpRegistry) (n : String) : Option McpToolEntry :=
  reg.find? (fun e => e.tool.name == n)

/-- `McpHandler.registerTool`: `Map.set` keyed by `tool.name` (replaces an
existing entry, otherwise appends). -/
def registerTool (reg : McpRegistry) (tool : McpTool) (handler : ToolHandlerFn) : McpRegistry :=
  if reg.any (fun e => e.tool.name == tool.name) then
    reg.map (fun e => if e.tool.name == tool.name then ⟨tool, handler⟩ else e)
  else
    reg ++ [⟨tool, handler⟩]

/-- A JSON-RPC request id: string or number. -/
abbrev RpcId := String ⊕ ℤ

/-- One `{ type: 'text', text }` content item. -/
structure ContentItem where
  type : String
  text : String
  deriving DecidableEq, Repr

/-- The result payload of a tools/call response; `isError` is absent
(`none`) on success and `some true` when the handler threw. -/
structure ToolCallResult where
  content : List ContentItem
  isError : Option Bool
  deriving DecidableEq, Repr

/-- The possible `result` payloads of the dispatcher. -/
inductive RpcResultPayload
  | toolCall (r : ToolCallResult)
  | toolsList (tools : List McpTool)
  | initData (protocolVersion serverName serverVersion : String)
  | pong
  deriving DecidableEq, Repr

/-- A JSON-RPC error object (the optional `data` member is unused by the
dispatcher). -/
structure JsonRpcErrorObj where
  code : ℤ
  message : String
  deriving DecidableEq, Repr

/-- A JSON-RPC response carries either a `result` or an `error` member. -/
inductive RpcOutcome
  | result (r : RpcResultPayload)
  | error (e : JsonRpcErrorObj)
  deriving DecidableEq, Repr

/-- A JSON-RPC response envelope. -/
structure JsonRpcResponse where
  jsonrpc : String
  id : RpcId
  outcome : RpcOutcome
  deriving DecidableEq, Repr

/-- The `params` object of a tools/call request. -/
structure ToolsCallParams where
  name : String
  arguments : Option ToolArgs
  deriving DecidableEq, Repr

/-- A JSON-RPC request envelope; `params` is only consulted by
`tools/call`. -/
structure JsonRpcRequest where
  jsonrpc : String
  id : RpcId
  method : String
  params : Option ToolsCallParams

/-- `McpHandler.successResponse`. -/
def successResponse (id : RpcId) (r : RpcResultPayload) : JsonRpcResponse :=
  ⟨"2.0", id, .result r⟩

/-- `McpHandler.errorResponse`. -/
def errorResponse (id : RpcId) (code : ℤ) (message : String) : JsonRpcResponse :=
  ⟨"2.0", id, .error ⟨code, message⟩⟩

/-- `McpHandler.handleToolsCall`: a missing or falsy tool name and an
unregistered tool name are protocol errors with code `-32602`; a found
handler that resolves yields a success envelope with the rendered text; a
found handler that throws yields a success envelope whose result carries
`isError: true` and `JSON.stringify({ error: message })` as the text. -/
def handleToolsCall (reg : McpRegistry) (req : JsonRpcRequest) : JsonRpcResponse :=
  match req.params with
  | none => errorResponse req.id (-32602) "Invalid params: tool name is required"
  | some params =>
    if params.name == "" then
      errorResponse req.id (-32602) "Invalid params: tool name is required"
    else
      match registryGet reg params.name with
      | none => errorResponse req.id (-32602) ("Tool not found: " ++ params.name)
      | some toolEntry =>
        match toolEntry.handler (params.arguments.getD []) with
        | .ok v =>
          successResponse req.id (.toolCall ⟨[⟨"text", renderToolValue v⟩], none⟩)
        | .error msg =>
          successResponse req.id
            (.toolCall ⟨[⟨"text", jsonStringifyErrorObj msg⟩], some true⟩)

/-- `McpHandler.handleRequest`: rejects a request whose `jsonrpc` member is
not "2.0" with `-32600`, dispatches the four supported methods, and
answers `-32601` for any other method. -/
def handleRequest (reg : McpRegistry) (req : JsonRpcRequest) : JsonRpcResponse :=
  if req.jsonrpc != "2.0" then
    errorResponse req.id (-32600) "Invalid Request: jsonrpc must be \"2.0\""
  else
    match req.method with
    | "tools/list" => successResponse req.id (.toolsList (reg.map (fun e => e.tool)))
    | "tools/call" => handleToolsCall reg req
    | "initialize" => successResponse req.id (.initData "2024-11-05" "x402-shopify-mcp" "1.0.0")
    | "ping" => successResponse req.id .pong
    | m => errorResponse req.id (-32601) ("Method not found: " ++ m)

/-- The code of the error member of a response, when present. -/
def responseErrorCode (resp : JsonRpcResponse) : Option ℤ :=
  match resp.outcome with
  | .error e => some e.code
  | .result _ => none

/-- C4: for every tools/call request through the dispatcher, an
unregistered tool name yields a JSON-RPC error with code `-32602`, and a
registered tool whose handler throws yields a success envelope (a `result`
member, no `error` member) whose result carries `isError = true` and the
handler's error message as `JSON.stringify({ error: message })`. -/
theorem handleRequest_tools_call_errors
    (reg : McpRegistry) (rid : RpcId) (p : ToolsCallParams) :
    (registryGet reg p.name = none →
        responseErrorCode (handleRequest reg ⟨"2.0", rid, "tools/call", some p⟩) =
          some (-32602))
    ∧ (∀ (entry : McpToolEntry) (msg : String),
        p.name ≠ "" →
        registryGet reg p.name = some entry →
        entry.handler (p.arguments.getD []) = .error msg →
        handleRequest reg ⟨"2.0", rid, "tools/call", some p⟩ =
          ⟨"2.0", rid, .result (.toolCall
            ⟨[⟨"text", jsonStringifyErrorObj msg⟩], some true⟩)⟩) := by
  constructor
  · intro hnone
    by_cases hempty : (p.name == "") = true
    · simp [handleRequest, handleToolsCall, hempty, errorResponse, responseErrorCode]
    · simp only [Bool.not_eq_true] at hempty
      simp [handleRequest, handleToolsCall, hempty, hnone, errorResponse, responseErrorCode]
  · intro entry msg hname hfound hthrow
    have hempty : (p.name == "") = false := beq_eq_false_iff_ne.mpr hname
    simp [handleRequest, handleToolsCall, hempty, hfound, hthrow, successResponse]

def c4FailingTool : McpTool :=
  { name := "failing_tool", description := "A tool that fails" }

def c4Registry : McpRegistry :=
  registerTool [] c4FailingTool (fun _ => .error "Tool execution failed")

/-- Witness for C4: a registry holding one tool whose handler always
throws; calling an unknown name answers `-32602`, calling the failing tool
answers a success envelope flagged `isError`. -/
theorem handleRequest_tools_call_errors_witness :
    (responseErrorCode
        (handleRequest c4Registry ⟨"2.0", .inr 1, "tools/call", some ⟨"unknown_tool", none⟩⟩) =
      some (-32602))
    ∧ handleRequest c4Registry ⟨"2.0", .inr 1, "tools/call", some ⟨"failing_tool", none⟩⟩ =
        ⟨"2.0", .inr 1, .result (.toolCall
          ⟨[⟨"text", jsonStringifyErrorObj "Tool execution failed"⟩], some true⟩)⟩ :=
  ⟨(handleRequest_tools_call_errors c4Registry (.inr 1) ⟨"unknown_tool", none⟩).1 rfl,
    (handleRequest_tools_call_errors c4Registry (.inr 1) ⟨"failing_tool", none⟩).2
      ⟨c4FailingTool, fun _ => .error "Tool execution failed"⟩ "Tool execution failed"
      (by decide) rfl rfl⟩

/-- The `validation` object built by the payment group's `verify_payment`
tool. -/
structure VerifyPaymentValidation where
  valid : Bool
  x402_version : Option ℤ
  scheme : Option String
  network : Option String
  has_signature : Bool
  has_transaction : Bool
  warnings : List String
  deriving DecidableEq, Repr

/-- The result object returned by the `verify_payment` tool. -/
structure VerifyPaymentResult where
  status : String
  validation : Option VerifyPaymentValidation
  errorText : Option String
  deriving DecidableEq, Repr

/-- The payment MCP group's `verify_payment` tool handler: decodes the
X-PAYMENT header (a `JSON.parse` throw is caught and returned as status
"invalid" with a `Failed to decode ...` message, not rethrown), then
performs purely structural validation — `valid` is cleared exactly when
`!decoded.payload?.signature || !decoded.payload?.transaction` (JS
truthiness), and warnings record unexpected version, scheme or network
prefix. No facilitator request is made and no intent row is touched: the
table is passed through unchanged. -/
def verifyPaymentToolHandler (db : OrderDb) (decoded : Option PaymentData)
    (decodeErrMsg : String) : VerifyPaymentResult × OrderDb :=
  match decoded with
  | none =>
    (⟨"invalid", none, some ("Failed to decode X-PAYMENT header: " ++ decodeErrMsg)⟩, db)
  | some d =>
    let hasSig := jsTruthy (d.payload.bind (fun pl => pl.signature))
    let hasTx := jsTruthy (d.payload.bind (fun pl => pl.transaction))
    let w1 : List String :=
      if d.x402Version ≠ some 1 then ["Unexpected x402 version"] else []
    let w2 : List String :=
      if d.scheme ≠ some "exact" then ["Unexpected payment scheme"] else []
    let w3 : List String :=
      if (d.network.map (fun n => n.startsWith "movement")).getD false then []
      else ["Network is not movement or movement-testnet"]
    let structOk := hasSig && hasTx
    let w4 : List String :=
      if structOk then [] else ["Missing signature or transaction in payload"]
    (⟨if structOk then "valid_structure" else "invalid_structure",
      some ⟨structOk, d.x402Version, d.scheme, d.network, hasSig, hasTx,
        w1 ++ w2 ++ w3 ++ w4⟩,
      none⟩, db)

def c8Payload : PaymentData :=
  { x402Version := some 1, scheme := some "exact", network := some "movement"
    payload := some { signature := some "", transaction := some "txbcs" } }

/-- Counterexample for C8: a decoded payload whose `signature` field is
present but the empty string is reported as `invalid_structure`, so the
tool does not report invalid structure *exactly when* a field is absent —
JS truthiness also rejects present-but-falsy fields. -/
theorem verify_payment_empty_signature_counterexample :
    (verifyPaymentToolHandler [] (some c8Payload) "").1.status = "invalid_structure"
    ∧ c8Payload.payload ≠ none
    ∧ (c8Payload.payload.bind (fun pl => pl.signature)) = some ""
    ∧ (c8Payload.payload.bind (fun pl => pl.transaction)) = some "txbcs" := by
  decide

/-- C8 as amended: the `verify_payment` tool performs only structural
validation and never calls the facilitator or mutates any intent state
(the table passes through unchanged); it reports `invalid_structure`
exactly when `payload.signature` or `payload.transaction` is absent or
falsy (JS truthiness, so the empty string also counts), and a decoding
failure yields the result status "invalid" rather than a thrown error. -/
theorem verify_payment_structural_only (db : OrderDb) (decoded : Option PaymentData)
    (m : String) :
    (verifyPaymentToolHandler db decoded m).2 = db
    ∧ (match decoded with
        | none => (verifyPaymentToolHandler db none m).1.status = "invalid"
        | some d =>
          (verifyPaymentToolHandler db (some d) m).1.status = "invalid_structure" ↔
            ¬ (jsTruthy (d.payload.bind (fun pl => pl.signature)) = true
                ∧ jsTruthy (d.payload.bind (fun pl => pl.transaction)) = true)) := by
  constructor
  · cases decoded <;> rfl
  · cases decoded with
    | none => rfl
    | some d =>
      by_cases hs : jsTruthy (d.payload.bind (fun pl => pl.signature)) = true
      · by_cases ht : jsTruthy (d.payload.bind (fun pl => pl.transaction)) = true
        · simp [verifyPaymentToolHandler, hs, ht]
        · simp [verifyPaymentToolHandler, hs, ht]
      · simp [verifyPaymentToolHandler, hs]

/-- `microMoveToMove` of the SSE MCP router: `BigInt(microMove) /
BigInt(100_000_000)` rendered with `toString()`. `BigInt` division
truncates toward zero, which is `Int.tdiv`. -/
def microMoveToMove (microMove : ℤ) : String :=
  toString (Int.tdiv microMove 100000000)

/-- The payment signing page URL constant of the SSE MCP router. -/
def PAYMENT_SIGNING_URL : String :=
  "https://agentic-marketplace-x402-1.onrender.com/pay"

/-- The object returned by the `initiate_checkout` tool handler (the
`order_intent`, `payment_requirements`, `instructions` and
`payment_signing_url` members, flattened to the fields the claims are
about). -/
structure InitiateCheckoutOutput where
  order_intent_id : String
  total_amount_micro : ℤ
  total_amount_move : String
  currency : String
  payTo : String
  maxAmountRequired : ℤ
  maxAmountRequired_move : String
  instructions : List String
  payment_signing_url : String
  deriving DecidableEq, Repr

/-- The `initiate_checkout` tool handler of the SSE MCP router: validates
that `store_id`, a non-empty `items` array and a `shipping_address` are
present, calls `orderService.createOrderIntent`, converts the micro-MOVE
total for display with `microMoveToMove`, and builds the payment
instructions and the signing URL around that converted amount while
`payment_requirements` keeps `maxAmountRequired` in micro-MOVE. -/
def initiateCheckoutToolHandler (env : CreateEnv) (db : OrderDb) (storeId : String)
    (items : List CreateOrderItemRequest) (shippingAddress : Option String) :
    Except String (InitiateCheckoutOutput × OrderDb) :=
  if storeId == "" || items.isEmpty then .error "store_id and items are required"
  else
    match shippingAddress with
    | none =>
      .error "shipping_address is required. Please provide the delivery address including first_name, last_name, address1, city, country, and zip."
    | some addr =>
      match createOrderIntent env db ⟨storeId, items, some addr⟩ with
      | .error e => .error (renderCreateOrderError e)
      | .ok (orderIntent, paymentRequirements, db2) =>
        let moveTokens := microMoveToMove orderIntent.total_amount
        .ok
          ({ order_intent_id := orderIntent.id
             total_amount_micro := orderIntent.total_amount
             total_amount_move := moveTokens
             currency := orderIntent.currency
             payTo := paymentRequirements.payTo
             maxAmountRequired := paymentRequirements.maxAmountRequired
             maxAmountRequired_move := moveTokens
             instructions :=
               ["1. Create a MOVE transaction transferring " ++ moveTokens ++
                  " MOVE to this address: " ++ paymentRequirements.payTo,
                "2. Sign the transaction with your wallet (but don\x27t submit it to the blockchain yet)",
                "3. Generate the base64-encoded X-PAYMENT header by signing the transaction here: " ++
                  PAYMENT_SIGNING_URL ++ "?payTo=" ++ paymentRequirements.payTo ++
                  "&amount=" ++ moveTokens ++ "&orderId=" ++ orderIntent.id,
                "4. Provide the X-PAYMENT header to finalize checkout"]
             payment_signing_url :=
               PAYMENT_SIGNING_URL ++ "?payTo=" ++ paymentRequirements.payTo ++
                 "&amount=" ++ moveTokens ++ "&orderId=" ++ orderIntent.id }, db2)

theorem tdiv_mul_lt_of_not_dvd (t : ℤ) (h0 : 0 ≤ t)
    (hnd : ¬ ((100000000 : ℤ) ∣ t)) :
    Int.tdiv t 100000000 * 100000000 < t := by
  rw [Int.tdiv_eq_ediv h0 (by norm_num)]
  have h1 : t % 100000000 ≠ 0 := fun hc => hnd (Int.dvd_of_emod_eq_zero hc)
  have h2 := Int.ediv_add_emod t 100000000
  have h3 : 0 ≤ t % 100000000 := Int.emod_nonneg t (by norm_num)
  omega

/-- C9: for every order intent returned by the `initiate_checkout` tool,
the MOVE amount embedded in the returned instructions, in the
`maxAmountRequired_move` display field and in the payment-signing URL is
`total_amount` integer-divided by `10^8` with `BigInt` truncation toward
zero (`Int.tdiv`); `paymentRequirements.maxAmountRequired` stays the exact
micro-MOVE total, so whenever the total is nonnegative and not a multiple
of `10^8`, the instructed transfer amount rescaled back to base units is
strictly less than `maxAmountRequired`. -/
theorem initiate_checkout_displayed_amount
    (env : CreateEnv) (db : OrderDb) (storeId : String)
    (items : List CreateOrderItemRequest) (addr : String)
    (out : InitiateCheckoutOutput) (db2 : OrderDb)
    (h : initiateCheckoutToolHandler env db storeId items (some addr) = .ok (out, db2)) :
    out.total_amount_move = toString (Int.tdiv out.total_amount_micro 100000000)
      ∧ out.maxAmountRequired_move = toString (Int.tdiv out.total_amount_micro 100000000)
      ∧ out.payment_signing_url =
          PAYMENT_SIGNING_URL ++ "?payTo=" ++ out.payTo ++ "&amount=" ++
            toString (Int.tdiv out.total_amount_micro 100000000) ++ "&orderId=" ++
            out.order_intent_id
      ∧ out.instructions.head? =
          some ("1. Create a MOVE transaction transferring " ++
            toString (Int.tdiv out.total_amount_micro 100000000) ++
            " MOVE to this address: " ++ out.payTo)
      ∧ out.maxAmountRequired = out.total_amount_micro
      ∧ (0 ≤ out.total_amount_micro → ¬ ((100000000 : ℤ) ∣ out.total_amount_micro) →
          Int.tdiv out.total_amount_micro 100000000 * 100000000 < out.maxAmountRequired) := by
  simp only [initiateCheckoutToolHandler] at h
  split at h
  · exact absurd h (by simp)
  · split at h
    · exact absurd h (by simp)
    · rename_i orderIntent paymentRequirements db2x heq
      have hreq : paymentRequirements.maxAmountRequired = orderIntent.total_amount := by
        simp only [createOrderIntent] at heq
        split at heq
        · exact absurd heq (by simp)
        · split at heq
          · exact absurd heq (by simp)
          · simp only [Except.ok.injEq, Prod.mk.injEq] at heq
            rw [← heq.2.1, ← heq.1]
      simp only [Except.ok.injEq, Prod.mk.injEq] at h
      obtain ⟨hout, _hdb⟩ := h
      subst hout
      refine ⟨rfl, rfl, rfl, rfl, ?_, ?_⟩
      · exact hreq
      · intro h0 hnd
        have := tdiv_mul_lt_of_not_dvd _ h0 hnd
        simp only [hreq]
        exact this

def c9Product : Product :=
  { id := "p9", title := "Prod9", variants := [⟨"v9", "Var9", "10.005", true, "sv9"⟩] }

def c9Env : CreateEnv :=
  { store := some c5Store, catalog := [c9Product], now := 0
    orderIntentExpiryMinutes := 30, paymentTimeoutSeconds := 600
    movementNetwork := "movement", movementAsset := "0x1::aptos_coin::AptosCoin"
    newOrderIntentId := "oi-9" }

def c9FallbackOutput : InitiateCheckoutOutput :=
  { order_intent_id := "", total_amount_micro := 0, total_amount_move := ""
    currency := "", payTo := "", maxAmountRequired := 0, maxAmountRequired_move := ""
    instructions := [], payment_signing_url := "" }

def c9Out : InitiateCheckoutOutput :=
  match initiateCheckoutToolHandler c9Env [] "s1" [⟨"p9", "v9", 1⟩] (some "addr") with
  | .ok (o, _) => o
  | .error _ => c9FallbackOutput

def c9Db2 : OrderDb :=
  match initiateCheckoutToolHandler c9Env [] "s1" [⟨"p9", "v9", 1⟩] (some "addr") with
  | .ok (_, d) => d
  | .error _ => []

/-- Witness for C9 at a concrete checkout whose total, 1000500000 micro
MOVE (price "10.005"), is not a multiple of 10^8: the displayed amount is
the truncation "10" and 10 * 10^8 is strictly below
`maxAmountRequired`. -/
theorem initiate_checkout_displayed_amount_witness :
    c9Out.total_amount_move = toString (Int.tdiv c9Out.total_amount_micro 100000000)
      ∧ Int.tdiv c9Out.total_amount_micro 100000000 * 100000000 < c9Out.maxAmountRequired := by
  have hmain := initiate_checkout_displayed_amount c9Env [] "s1" [⟨"p9", "v9", 1⟩] "addr"
    c9Out c9Db2 rfl
  exact ⟨hmain.1, hmain.2.2.2.2.2 (by decide) (by decide)⟩

/-- One element of the enriched order's `products` array. -/
structure EnrichedProduct where
  item : OrderItem
  product : Option Product
  deriving DecidableEq, Repr

/-- The enriched order view: the intent spread together with the public
store view and the per-item product snapshots. -/
structure EnrichedOrder where
  orderIntent : OrderIntent
  store : StorePublic
  products : List EnrichedProduct
  deriving DecidableEq, Repr

/-- The throw site of `getEnrichedOrder`. -/
inductive EnrichedOrderError
  | storeNotFound
  deriving DecidableEq, Repr

/-- `OrderService.getEnrichedOrder`: loads the intent (absent → `none`),
loads the store (absent → throws "Store not found for order"), resolves
each item's product from the catalog, and returns the intent enriched with
`storeService.toPublicStore(store)` and the product snapshots. -/
def getEnrichedOrder (db : OrderDb) (stores : List Store) (catalog : List Product)
    (orderIntentId : String) : Except EnrichedOrderError (Option EnrichedOrder) :=
  match getOrderIntentById db orderIntentId with
  | none => .ok none
  | some orderIntent =>
    match stores.find? (fun st => st.id == orderIntent.store_id) with
    | none => .error .storeNotFound
    | some store =>
      let enrichedProducts := orderIntent.items.map (fun item =>
        ⟨item, catalog.find? (fun pr => pr.id == item.product_id)⟩)
      .ok (some ⟨orderIntent, toPublicStore store, enrichedProducts⟩)

/-- C10: for every intent found by `getEnrichedOrder`, the store object
embedded in the returned enriched order is exactly
`toPublicStore store` — a `StorePublic` value, which by construction
carries exactly the fields `id`, `shopify_store_url`, `description`,
`agent_metadata` and `created_at`; the projection is insensitive to the
store's `shopify_admin_access_token`, `pay_to_address` and `updated_at`,
so those sensitive columns can never reach the enriched view. -/
theorem getEnrichedOrder_public_store
    (db : OrderDb) (stores : List Store) (catalog : List Product)
    (oid : String) (intent : OrderIntent) (store : Store) (e : EnrichedOrder)
    (h1 : getOrderIntentById db oid = some intent)
    (h2 : stores.find? (fun st => st.id == intent.store_id) = some store)
    (h3 : getEnrichedOrder db stores catalog oid = .ok (some e)) :
    e.store = toPublicStore store
      ∧ (∀ s : Store,
          toPublicStore s =
            ⟨s.id, s.shopify_store_url, s.description, s.agent_metadata, s.created_at⟩)
      ∧ (∀ (s : Store) (token addr upd : String),
          toPublicStore
            { s with
              shopify_admin_access_token := token
              pay_to_address := addr
              updated_at := upd } = toPublicStore s) := by
  refine ⟨?_, fun s => rfl, fun s token addr upd => rfl⟩
  simp only [getEnrichedOrder, h1, h2] at h3
  simp only [Except.ok.injEq, Option.some.injEq] at h3
  rw [← h3]

def c10Store : Store :=
  { id := "s1", shopify_store_url := "https://s1.example"
    shopify_admin_access_token := "secret-token", description := "desc"
    agent_metadata := "meta", pay_to_address := "0xsecret"
    created_at := "t0", updated_at := "t1" }

def c10Enriched : EnrichedOrder :=
  match getEnrichedOrder [samplePendingIntent] [c10Store] [] "o1" with
  | .ok (some e) => e
  | _ => ⟨samplePendingIntent, ⟨"", "", "", "", ""⟩, []⟩

/-- Witness for C10 at a concrete store row carrying secret columns. -/
theorem getEnrichedOrder_public_store_witness :
    c10Enriched.store = toPublicStore c10Store
      ∧ (∀ s : Store,
          toPublicStore s =
            ⟨s.id, s.shopify_store_url, s.description, s.agent_metadata, s.created_at⟩)
      ∧ (∀ (s : Store) (token addr upd : String),
          toPublicStore
            { s with
              shopify_admin_access_token := token
              pay_to_address := addr
              updated_at := upd } = toPublicStore s) :=
  getEnrichedOrder_public_store [samplePendingIntent] [c10Store] [] "o1"
    samplePendingIntent c10Store c10Enriched (by decide) (by decide) (by decide)
